import Mathlib

/-!
Verification of the contact-form handler (`contact-form.js`).

The script validates a four-field contact form (name, email, subject,
message), renders inline and summary error feedback, and simulates an
asynchronous submission.  We embed the pure validation logic and the
DOM-visible effects of each handler as Lean functions and prove the
specified properties about them.
-/

/-- The four form fields, in declaration order (name, email, subject, message). -/
inductive FieldName where
  | name
  | email
  | subject
  | message
deriving DecidableEq, Repr

/-- A validation error: `{ field, message }` as pushed by `validateForm`. -/
structure ValidationError where
  field : FieldName
  message : String
deriving DecidableEq, Repr

/-- The form record built in the submit handler:
`{ name, email, subject, message }`, each a string. -/
structure FormRecord where
  name : String
  email : String
  subject : String
  message : String
deriving DecidableEq, Repr

/-- Look up a record field by field name. -/
def FormRecord.get (data : FormRecord) : FieldName → String
  | .name => data.name
  | .email => data.email
  | .subject => data.subject
  | .message => data.message

/-- Replace one field of a record. -/
def FormRecord.set (data : FormRecord) : FieldName → String → FormRecord
  | .name, v => { data with name := v }
  | .email, v => { data with email := v }
  | .subject, v => { data with subject := v }
  | .message, v => { data with message := v }

/-- The DOM `name` attribute of each field (the string the
`validateSingleField` switch matches on). -/
def FieldName.key : FieldName → String
  | .name => "name"
  | .email => "email"
  | .subject => "subject"
  | .message => "message"

/-- JavaScript whitespace (the class matched by `\s` in the email regex and
stripped by `String.prototype.trim`): tab, LF, VT, FF, CR, space, NBSP,
the Unicode space separators, line/paragraph separators and the BOM. -/
def jsWhitespace (c : Char) : Bool :=
  c.toNat == 9 || c.toNat == 10 || c.toNat == 11 || c.toNat == 12 ||
  c.toNat == 13 || c.toNat == 32 || c.toNat == 160 || c.toNat == 0x1680 ||
  (0x2000 ≤ c.toNat && c.toNat ≤ 0x200A) || c.toNat == 0x2028 ||
  c.toNat == 0x2029 || c.toNat == 0x202F || c.toNat == 0x205F ||
  c.toNat == 0x3000 || c.toNat == 0xFEFF

/-- JavaScript `String.prototype.trim`: drop leading and trailing
whitespace characters. -/
def jsTrim (s : String) : String :=
  String.mk (((s.data.dropWhile jsWhitespace).reverse.dropWhile jsWhitespace).reverse)

/-- A character matched by `[^\s@]` in the email regex. -/
def emailChar (c : Char) : Bool :=
  !jsWhitespace c && c != '@'

/-- Match of `[^\s@]+\.[^\s@]+$` against the part after the `@`:
every character is `[^\s@]` (note `.` itself is such a character) and some
`.` occurs at an interior position, splitting the domain into a nonempty
part before and a nonempty part after. -/
def emailDomain (l : List Char) : Bool :=
  l.all emailChar && ((l.drop 1).dropLast.contains '.')

/-- Scan the characters after the first one: consume further `[^\s@]`
characters of the local part until the `@`, then match the domain.
Since the local part `[^\s@]+` cannot contain `@`, the `@` consumed by the
regex is necessarily the first `@` of the string. -/
def emailAfterFirst : List Char → Bool
  | [] => false
  | c :: rest => if c = '@' then emailDomain rest else emailChar c && emailAfterFirst rest

/-- Match of the whole regex against a character list: at least one
`[^\s@]` character, then the scan for the `@` and the domain. -/
def emailLocal : List Char → Bool
  | [] => false
  | c :: rest => emailChar c && emailAfterFirst rest

/-- `isValidEmail(email)`: test of the regex `^[^\s@]+@[^\s@]+\.[^\s@]+$`.
The string must start with at least one `[^\s@]` character, then an `@`,
then a domain with an interior dot. -/
def isValidEmail (s : String) : Bool :=
  emailLocal s.data

/-- `validateForm(data)`: for each field in declaration order push the
required-error when the value is empty (falsy), otherwise the length or
format error when the extra check fails. -/
def validateForm (data : FormRecord) : List ValidationError :=
  let errors : List ValidationError := []
  let errors :=
    if data.name = "" then errors ++ [⟨.name, "Name is required"⟩]
    else if data.name.length < 2 then errors ++ [⟨.name, "Name must be at least 2 characters"⟩]
    else errors
  let errors :=
    if data.email = "" then errors ++ [⟨.email, "Email is required"⟩]
    else if !isValidEmail data.email then errors ++ [⟨.email, "Please enter a valid email address"⟩]
    else errors
  let errors :=
    if data.subject = "" then errors ++ [⟨.subject, "Subject is required"⟩]
    else if data.subject.length < 3 then errors ++ [⟨.subject, "Subject must be at least 3 characters"⟩]
    else errors
  let errors :=
    if data.message = "" then errors ++ [⟨.message, "Message is required"⟩]
    else if data.message.length < 10 then errors ++ [⟨.message, "Message must be at least 10 characters"⟩]
    else errors
  errors

/-- The switch of `validateSingleField`: given the field's `name` attribute
and its trimmed value, the single error it computes, or `none`.
A name with no case (any name other than the four) leaves `error` null. -/
def validateFieldError (fieldName : String) (value : String) : Option String :=
  if fieldName = "name" then
    if value = "" then some "Name is required"
    else if value.length < 2 then some "Name must be at least 2 characters"
    else none
  else if fieldName = "email" then
    if value = "" then some "Email is required"
    else if !isValidEmail value then some "Please enter a valid email address"
    else none
  else if fieldName = "subject" then
    if value = "" then some "Subject is required"
    else if value.length < 3 then some "Subject must be at least 3 characters"
    else none
  else if fieldName = "message" then
    if value = "" then some "Message is required"
    else if value.length < 10 then some "Message must be at least 10 characters"
    else none
  else none

/-- The errors `validateForm` produced for one particular field. -/
def fieldErrors (f : FieldName) (errors : List ValidationError) : List ValidationError :=
  errors.filter (fun e => e.field == f)

/-- The required-error message of each field. -/
def requiredMessage : FieldName → String
  | .name => "Name is required"
  | .email => "Email is required"
  | .subject => "Subject is required"
  | .message => "Message is required"

/-! ## DOM model

`classList` is an ordered set of class tokens: `add` appends when absent,
`remove` deletes every occurrence. -/

/-- `classList.add(c)`. -/
def classAdd (cs : List String) (c : String) : List String :=
  if c ∈ cs then cs else cs ++ [c]

/-- `classList.remove(c)`. -/
def classRemove (cs : List String) (c : String) : List String :=
  cs.filter (fun x => x != c)

/-- The element following a form field (`nextElementSibling`): its class
list and text content.  The handlers touch it only when it carries the
class `error-message`. -/
structure SiblingDiv where
  classes : List String
  textContent : String
deriving DecidableEq, Repr

/-- An input or textarea element: `name` attribute, current `value`,
class list and optional next sibling. -/
structure FieldElem where
  name : String
  value : String
  classes : List String
  nextSibling : Option SiblingDiv
deriving DecidableEq, Repr

/-- The submit button: `disabled` flag, `#btn-text` content and the state
of the contained icon (`data-lucide` attribute and class list). -/
structure ButtonState where
  disabled : Bool
  btnText : String
  iconName : String
  iconClasses : List String
deriving DecidableEq, Repr

/-- The page state the handlers read and write: the four form fields, the
submit button, the summary `#error-message` container with its
`#error-list` items, the `#success-message` container and the form's own
class list. -/
structure DomState where
  fields : FieldName → FieldElem
  button : ButtonState
  errorSummaryClasses : List String
  errorListItems : List String
  successClasses : List String
  formClasses : List String

/-- The invalid-marking block (duplicated verbatim in the source in
`validateSingleField` and in `showErrors`): add the red border/background,
drop the gray border, and when the next sibling is an `error-message`
element set its text and unhide it. -/
def markFieldInvalid (msg : String) (field : FieldElem) : FieldElem :=
  let cs := classRemove (classAdd (classAdd field.classes "border-red-500") "bg-red-50") "border-gray-300"
  let sib := match field.nextSibling with
    | some d =>
        if "error-message" ∈ d.classes then
          some { d with textContent := msg, classes := classRemove d.classes "hidden" }
        else some d
    | none => none
  { field with classes := cs, nextSibling := sib }

/-- `validateSingleField(field)`: trim the value, compute the single error
via the switch, and mark the field invalid when there is one.  When
`error` stays null the function performs no DOM update. -/
def validateSingleField (field : FieldElem) : FieldElem :=
  let value := jsTrim field.value
  match validateFieldError field.name value with
  | some err => markFieldInvalid err field
  | none => field

/-- The `input` listener of `setupRealTimeValidation`: when the field is
currently marked invalid (`border-red-500` present), restore the normal
styling and hide the sibling error message. -/
def inputClearDisplay (field : FieldElem) : FieldElem :=
  if "border-red-500" ∈ field.classes then
    let cs := classAdd (classRemove (classRemove field.classes "border-red-500") "bg-red-50") "border-gray-300"
    let sib := match field.nextSibling with
      | some d =>
          if "error-message" ∈ d.classes then some { d with classes := classAdd d.classes "hidden" }
          else some d
      | none => none
    { field with classes := cs, nextSibling := sib }
  else field

/-- The per-field part of `clearErrors`: restore the normal styling and
hide the sibling error message. -/
def clearFieldDisplay (field : FieldElem) : FieldElem :=
  let cs := classAdd (classRemove (classRemove field.classes "border-red-500") "bg-red-50") "border-gray-300"
  let sib := match field.nextSibling with
    | some d =>
        if "error-message" ∈ d.classes then some { d with classes := classAdd d.classes "hidden" }
        else some d
    | none => none
  { field with classes := cs, nextSibling := sib }

/-- `clearErrors()`: hide the summary error and success containers and
clear the error display of all four fields. -/
def clearErrors (st : DomState) : DomState :=
  { st with
    errorSummaryClasses := classAdd st.errorSummaryClasses "hidden"
    successClasses := classAdd st.successClasses "hidden"
    fields := fun f => clearFieldDisplay (st.fields f) }

/-- `showErrors(errors)`: empty `#error-list`, then for each error append
its message as a list item and mark its field invalid; finally unhide the
summary container, give it the slide-in animation and shake the form
(the delayed removal of `shake` and the scroll are not state changes we
track). -/
def showErrors (errors : List ValidationError) (st : DomState) : DomState :=
  let st := { st with errorListItems := [] }
  let st := errors.foldl
    (fun acc e =>
      { acc with
        errorListItems := acc.errorListItems ++ [e.message]
        fields := fun f => if f = e.field then markFieldInvalid e.message (acc.fields f) else acc.fields f })
    st
  { st with
    errorSummaryClasses := classAdd (classRemove st.errorSummaryClasses "hidden") "slide-in"
    formClasses := classAdd st.formClasses "shake" }

/-- `showLoading()`: disable the submit button, set its text to
`Sending...` and swap the icon to a spinning loader. -/
def showLoading (st : DomState) : DomState :=
  { st with
    button :=
      { disabled := true
        btnText := "Sending..."
        iconName := "loader-2"
        iconClasses := classAdd st.button.iconClasses "animate-spin" } }

/-- `resetButton()`: re-enable the submit button, restore the
`Launch Message` text and the send icon. -/
def resetButton (st : DomState) : DomState :=
  { st with
    button :=
      { disabled := false
        btnText := "Launch Message"
        iconName := "send"
        iconClasses := classRemove st.button.iconClasses "animate-spin" } }

/-- `submitForm(data)`: reset the form fields, unhide the success message
with the slide-in animation, and reset the button (the log, the scroll and
the delayed auto-hide are not state changes we track). -/
def submitForm (_data : FormRecord) (st : DomState) : DomState :=
  let st := { st with fields := fun f => { st.fields f with value := "" } }
  let st := { st with successClasses := classAdd (classRemove st.successClasses "hidden") "slide-in" }
  resetButton st

/-- The blur listener: run `validateSingleField` on one field. -/
def blurField (f : FieldName) (st : DomState) : DomState :=
  { st with fields := fun g => if g = f then validateSingleField (st.fields g) else st.fields g }

/-- The input listener: run the invalid-state clearing on one field. -/
def inputField (f : FieldName) (st : DomState) : DomState :=
  { st with fields := fun g => if g = f then inputClearDisplay (st.fields g) else st.fields g }

/-! ## Submit handler control flow -/

/-- The observable steps the submit handler can take, in order. -/
inductive SubmitStep where
  | preventDefault
  | clearErrorsStep
  | showErrorsStep (errors : List ValidationError)
  | showLoadingStep
  | submitFormStep (data : FormRecord)
deriving DecidableEq, Repr

/-- The record built in the submit handler: each raw field value trimmed. -/
def trimRecord (raw : FormRecord) : FormRecord :=
  { name := jsTrim raw.name
    email := jsTrim raw.email
    subject := jsTrim raw.subject
    message := jsTrim raw.message }

/-- The submit listener of `setupFormSubmission` as the sequence of steps
it performs: prevent default, clear previous errors, build the trimmed
record, validate; when errors are present show them and return, otherwise
show the loading state and (after the simulated 1500 ms delay) run
`submitForm` on the data. -/
def submitSteps (raw : FormRecord) : List SubmitStep :=
  let data := trimRecord raw
  let errors := validateForm data
  if errors.length > 0 then
    [.preventDefault, .clearErrorsStep, .showErrorsStep errors]
  else
    [.preventDefault, .clearErrorsStep, .showLoadingStep, .submitFormStep data]

/-- The zero-or-one errors the single-field switch yields for field `f`
with trimmed value `v`, as a list of `ValidationError`. -/
def singleErrorList (f : FieldName) (v : String) : List ValidationError :=
  match validateFieldError f.key v with
  | some m => [⟨f, m⟩]
  | none => []

/-- The name chain of `validateForm`. -/
def nameBlock (v : String) : List ValidationError :=
  if v = "" then [⟨.name, "Name is required"⟩]
  else if v.length < 2 then [⟨.name, "Name must be at least 2 characters"⟩]
  else []

/-- The email chain of `validateForm`. -/
def emailBlock (v : String) : List ValidationError :=
  if v = "" then [⟨.email, "Email is required"⟩]
  else if !isValidEmail v then [⟨.email, "Please enter a valid email address"⟩]
  else []

/-- The subject chain of `validateForm`. -/
def subjectBlock (v : String) : List ValidationError :=
  if v = "" then [⟨.subject, "Subject is required"⟩]
  else if v.length < 3 then [⟨.subject, "Subject must be at least 3 characters"⟩]
  else []

/-- The message chain of `validateForm`. -/
def messageBlock (v : String) : List ValidationError :=
  if v = "" then [⟨.message, "Message is required"⟩]
  else if v.length < 10 then [⟨.message, "Message must be at least 10 characters"⟩]
  else []

/-- Pushing onto an accumulator in a two-branch if/else-if chain is
appending the chain's own contribution. -/
theorem append_if_push (E b b' : List ValidationError) (c c' : Prop)
    [Decidable c] [Decidable c'] :
    (if c then E ++ b else if c' then E ++ b' else E) =
      E ++ (if c then b else if c' then b' else []) := by
  split_ifs <;> simp

/-- `validateForm` is the concatenation of the four per-field chains, in
declaration order. -/
theorem validateForm_eq (data : FormRecord) :
    validateForm data =
      nameBlock data.name ++ emailBlock data.email ++
      subjectBlock data.subject ++ messageBlock data.message := by
  simp only [validateForm, append_if_push]
  simp [nameBlock, emailBlock, subjectBlock, messageBlock, List.append_assoc]

/-- The single-field switch on `name` computes the name chain. -/
theorem singleErrorList_name (v : String) : singleErrorList .name v = nameBlock v := by
  simp only [singleErrorList, validateFieldError, FieldName.key, nameBlock]
  split_ifs <;> simp_all

/-- The single-field switch on `email` computes the email chain. -/
theorem singleErrorList_email (v : String) : singleErrorList .email v = emailBlock v := by
  simp only [singleErrorList, validateFieldError, FieldName.key, emailBlock]
  split_ifs <;> simp_all

/-- The single-field switch on `subject` computes the subject chain. -/
theorem singleErrorList_subject (v : String) : singleErrorList .subject v = subjectBlock v := by
  simp only [singleErrorList, validateFieldError, FieldName.key, subjectBlock]
  split_ifs <;> simp_all

/-- The single-field switch on `message` computes the message chain. -/
theorem singleErrorList_message (v : String) : singleErrorList .message v = messageBlock v := by
  simp only [singleErrorList, validateFieldError, FieldName.key, messageBlock]
  split_ifs <;> simp_all

/-- `fieldErrors` distributes over concatenation. -/
theorem fieldErrors_append (f : FieldName) (a b : List ValidationError) :
    fieldErrors f (a ++ b) = fieldErrors f a ++ fieldErrors f b := by
  simp [fieldErrors]

/-- Filtering the name chain: it only ever holds name errors. -/
theorem fieldErrors_nameBlock (v : String) (f : FieldName) :
    fieldErrors f (nameBlock v) = if f = .name then nameBlock v else [] := by
  unfold fieldErrors nameBlock
  cases f <;> split_ifs <;> simp_all [List.filter] <;> try decide

/-- Filtering the email chain: it only ever holds email errors. -/
theorem fieldErrors_emailBlock (v : String) (f : FieldName) :
    fieldErrors f (emailBlock v) = if f = .email then emailBlock v else [] := by
  unfold fieldErrors emailBlock
  cases f <;> split_ifs <;> simp_all [List.filter] <;> try decide

/-- Filtering the subject chain: it only ever holds subject errors. -/
theorem fieldErrors_subjectBlock (v : String) (f : FieldName) :
    fieldErrors f (subjectBlock v) = if f = .subject then subjectBlock v else [] := by
  unfold fieldErrors subjectBlock
  cases f <;> split_ifs <;> simp_all [List.filter] <;> try decide

/-- Filtering the message chain: it only ever holds message errors. -/
theorem fieldErrors_messageBlock (v : String) (f : FieldName) :
    fieldErrors f (messageBlock v) = if f = .message then messageBlock v else [] := by
  unfold fieldErrors messageBlock
  cases f <;> split_ifs <;> simp_all [List.filter] <;> try decide

/-- The errors `validateForm` produces for field `f` are exactly the
zero-or-one errors of the single-field switch on that field's value:
each field's if/else-if chain contributes errors for its own field only. -/
theorem fieldErrors_validateForm (data : FormRecord) (f : FieldName) :
    fieldErrors f (validateForm data) = singleErrorList f (data.get f) := by
  rw [validateForm_eq, fieldErrors_append, fieldErrors_append, fieldErrors_append,
    fieldErrors_nameBlock, fieldErrors_emailBlock, fieldErrors_subjectBlock,
    fieldErrors_messageBlock]
  cases f <;>
    simp [singleErrorList_name, singleErrorList_email, singleErrorList_subject,
      singleErrorList_message, FormRecord.get]


/-! ## Structure of accepted email addresses -/

/-- A matched domain contains a dot. -/
theorem emailDomain_dot {l : List Char} (h : emailDomain l = true) : '.' ∈ l := by
  have h2 : ((l.drop 1).dropLast).contains '.' = true :=
    ((Bool.and_eq_true _ _).mp h).2
  have h3 : '.' ∈ (l.drop 1).dropLast := by simpa using h2
  exact ((List.dropLast_sublist _).trans (List.drop_sublist _ _)).subset h3

/-- The scan after the first character succeeds only on strings of the
form `local@domain` with a matched domain. -/
theorem emailAfterFirst_decomp {l : List Char} (h : emailAfterFirst l = true) :
    ∃ A D, l = A ++ '@' :: D ∧ emailDomain D = true := by
  induction l with
  | nil => simp [emailAfterFirst] at h
  | cons c rest ih =>
    by_cases hc : c = '@'
    · subst hc
      refine ⟨[], rest, rfl, ?_⟩
      simpa [emailAfterFirst] using h
    · rw [emailAfterFirst, if_neg hc] at h
      obtain ⟨A, D, hl, hd⟩ := ih ((Bool.and_eq_true _ _).mp h).2
      exact ⟨c :: A, D, by rw [hl]; rfl, hd⟩

/-- Every string the email regex accepts contains an `@` with a `.`
somewhere after it. -/
theorem emailLocal_decomp {l : List Char} (h : emailLocal l = true) :
    ∃ A D, l = A ++ '@' :: D ∧ '.' ∈ D := by
  cases l with
  | nil => simp [emailLocal] at h
  | cons c rest =>
    simp only [emailLocal, Bool.and_eq_true] at h
    obtain ⟨A, D, hAD, hD⟩ := emailAfterFirst_decomp h.2
    exact ⟨c :: A, D, by rw [hAD]; rfl, emailDomain_dot hD⟩

theorem isValidEmail_decomp {s : String} (h : isValidEmail s = true) :
    ∃ A D, s.data = A ++ '@' :: D ∧ '.' ∈ D :=
  emailLocal_decomp h

/-! ## Miscellaneous helper lemmas -/

/-- A string of positive length is not the empty string. -/
theorem ne_empty_of_length_succ {s : String} {n : Nat} (h : s.length = n + 1) :
    s ≠ "" := by
  intro he
  rw [he] at h
  simp at h

/-- Trimming a string of whitespace characters gives the empty string. -/
theorem jsTrim_eq_empty {s : String} (h : ∀ c ∈ s.data, jsWhitespace c = true) :
    jsTrim s = "" := by
  unfold jsTrim
  have h1 : s.data.dropWhile jsWhitespace = [] := List.dropWhile_eq_nil_iff.mpr h
  rw [h1]
  rfl

/-- The error-rendering fold of `showErrors` never touches the button. -/
theorem showErrors_foldl_button (errors : List ValidationError) (st : DomState) :
    (errors.foldl
      (fun acc e =>
        { acc with
          errorListItems := acc.errorListItems ++ [e.message]
          fields := fun f => if f = e.field then markFieldInvalid e.message (acc.fields f) else acc.fields f })
      st).button = st.button := by
  induction errors generalizing st with
  | nil => rfl
  | cons e es ih => exact ih _

/-! ## Claim theorems -/

/-- C1: `validateForm` produces at most one error per field, and when a
field's (trimmed) value is the empty string the error recorded for that
field is exactly the field's required message — never its length or
pattern message: the required check is the first rule of each chain. -/
theorem validateForm_one_error_required_first (data : FormRecord) (f : FieldName) :
    (fieldErrors f (validateForm data)).length ≤ 1 ∧
    (data.get f = "" → fieldErrors f (validateForm data) = [⟨f, requiredMessage f⟩]) := by
  constructor
  · rw [fieldErrors_validateForm]
    unfold singleErrorList
    cases validateFieldError f.key (data.get f) <;> simp
  · intro h
    rw [fieldErrors_validateForm, h]
    cases f <;> decide

/-- Witness for C1 at the all-empty record and the name field. -/
theorem validateForm_one_error_required_first_witness :
    (fieldErrors .name (validateForm ⟨"", "", "", ""⟩)).length ≤ 1 ∧
    fieldErrors .name (validateForm ⟨"", "", "", ""⟩) = [⟨.name, requiredMessage .name⟩] :=
  ⟨(validateForm_one_error_required_first ⟨"", "", "", ""⟩ .name).1,
   (validateForm_one_error_required_first ⟨"", "", "", ""⟩ .name).2 rfl⟩

/-- A field in the state the claim C2 is about: currently marked invalid,
holding a value whose blur-time validation produces no error. -/
def validBlurField : FieldElem :=
  { name := "name"
    value := "Alice"
    classes := ["border-red-500", "bg-red-50"]
    nextSibling := some { classes := ["error-message"], textContent := "Name is required" } }

/-- C2 is false on the code: at `validBlurField` the blur-time validation
produces no error, yet `validateSingleField` leaves the invalid classes in
place and the sibling error message visible — it has no clearing branch. -/
theorem blur_valid_not_cleared_counterexample :
    validateFieldError validBlurField.name (jsTrim validBlurField.value) = none ∧
    "border-red-500" ∈ (validateSingleField validBlurField).classes ∧
    "hidden" ∉ (validateSingleField validBlurField).nextSibling.elim [] SiblingDiv.classes :=
  ⟨by decide, by decide, by decide⟩

/-- C2 (amended): when a blur-time validation of a field produces no
error, `validateSingleField` leaves the field entirely unchanged — classes
and sibling error element included; the invalid state is not cleared on
blur (clearing happens only in the input listener and in `clearErrors`). -/
theorem blur_no_error_leaves_unchanged (field : FieldElem)
    (h : validateFieldError field.name (jsTrim field.value) = none) :
    validateSingleField field = field := by
  simp only [validateSingleField]
  rw [h]

/-- Witness for the amended C2 at `validBlurField`. -/
theorem blur_no_error_leaves_unchanged_witness :
    validateFieldError validBlurField.name (jsTrim validBlurField.value) = none ∧
    validateSingleField validBlurField = validBlurField :=
  ⟨by decide, blur_no_error_leaves_unchanged validBlurField (by decide)⟩

/-- C3: when validation of the submitted (trimmed) record yields a
non-empty error list, the submit handler never shows the loading state and
never invokes the submission stub: it renders the errors and stops. -/
theorem submit_invalid_never_loads (raw : FormRecord)
    (h : validateForm (trimRecord raw) ≠ []) :
    SubmitStep.showLoadingStep ∉ submitSteps raw ∧
    (∀ d, SubmitStep.submitFormStep d ∉ submitSteps raw) ∧
    SubmitStep.showErrorsStep (validateForm (trimRecord raw)) ∈ submitSteps raw := by
  have hl : 0 < (validateForm (trimRecord raw)).length := List.length_pos.mpr h
  simp only [submitSteps]
  rw [if_pos hl]
  exact ⟨by simp, fun d => by simp, by simp⟩

/-- Witness for C3 at the all-empty submission. -/
theorem submit_invalid_never_loads_witness :
    validateForm (trimRecord ⟨"", "", "", ""⟩) ≠ [] ∧
    SubmitStep.showLoadingStep ∉ submitSteps ⟨"", "", "", ""⟩ :=
  ⟨by decide, (submit_invalid_never_loads ⟨"", "", "", ""⟩ (by decide)).1⟩

/-- C4: on the record with all four fields empty, `validateForm` returns
exactly four errors, one per field, in declaration order
name, email, subject, message. -/
theorem validateForm_all_empty :
    validateForm ⟨"", "", "", ""⟩ =
      [⟨.name, "Name is required"⟩, ⟨.email, "Email is required"⟩,
       ⟨.subject, "Subject is required"⟩, ⟨.message, "Message is required"⟩] := by
  decide

/-- C5: a raw field value consisting only of whitespace (the empty string
included) trims to the empty string, so submit-time validation records
exactly that field's required error and nothing else for it. -/
theorem whitespace_only_required (raw : FormRecord) (f : FieldName)
    (h : ∀ c ∈ (raw.get f).data, jsWhitespace c = true) :
    fieldErrors f (validateForm (trimRecord raw)) = [⟨f, requiredMessage f⟩] := by
  have ht : (trimRecord raw).get f = "" := by
    cases f <;> exact jsTrim_eq_empty h
  rw [fieldErrors_validateForm, ht]
  cases f <;> decide

/-- Witness for C5: a whitespace-only name field. -/
theorem whitespace_only_required_witness :
    (∀ c ∈ (FormRecord.get ⟨" ", "a@b.co", "abc", "0123456789"⟩ .name).data, jsWhitespace c = true) ∧
    fieldErrors .name (validateForm (trimRecord ⟨" ", "a@b.co", "abc", "0123456789"⟩)) =
      [⟨.name, requiredMessage .name⟩] :=
  ⟨by decide, whitespace_only_required ⟨" ", "a@b.co", "abc", "0123456789"⟩ .name (by decide)⟩

/-- C6: a non-empty email value with no `@`, or with no `.` anywhere after
an `@`, fails `isValidEmail` and yields exactly the format error
"Please enter a valid email address"; the value `a@b.co` yields no email
error. -/
theorem email_format_rule (r : FormRecord) (s : String) :
    (s ≠ "" → (('@' ∉ s.data) ∨ ¬ (∃ A D, s.data = A ++ '@' :: D ∧ '.' ∈ D)) →
      fieldErrors .email (validateForm (r.set .email s)) =
        [⟨.email, "Please enter a valid email address"⟩]) ∧
    fieldErrors .email (validateForm (r.set .email "a@b.co")) = [] := by
  constructor
  · intro hne h
    have hv : isValidEmail s = false := by
      cases hb : isValidEmail s
      · rfl
      · obtain ⟨A, D, hAD, hD⟩ := isValidEmail_decomp hb
        rcases h with h1 | h2
        · exact absurd (by rw [hAD]; exact List.mem_append_right A (List.mem_cons_self _ _)) h1
        · exact absurd ⟨A, D, hAD, hD⟩ h2
    rw [fieldErrors_validateForm]
    show singleErrorList .email s = _
    simp [singleErrorList_email, emailBlock, hne, hv]
  · rw [fieldErrors_validateForm]
    show singleErrorList .email "a@b.co" = []
    decide

/-- Witness for C6: `abc` (no `@`) gets the format error, `a@b.co` none. -/
theorem email_format_rule_witness :
    fieldErrors .email (validateForm (FormRecord.set ⟨"", "", "", ""⟩ .email "abc")) =
      [⟨.email, "Please enter a valid email address"⟩] ∧
    fieldErrors .email (validateForm (FormRecord.set ⟨"", "", "", ""⟩ .email "a@b.co")) = [] :=
  ⟨(email_format_rule ⟨"", "", "", ""⟩ "abc").1 (by decide) (Or.inl (by decide)),
   (email_format_rule ⟨"", "", "", ""⟩ "a@b.co").2⟩

/-- C7: for the three fields with a minimum length (name 2, subject 3,
message 10), a non-empty value of length one below the minimum yields that
field's length error, and a value of exactly the minimum length yields no
error for that field. -/
theorem length_rule_boundaries (r : FormRecord) (s : String) :
    (s.length = 1 →
      fieldErrors .name (validateForm (r.set .name s)) =
        [⟨.name, "Name must be at least 2 characters"⟩]) ∧
    (s.length = 2 → fieldErrors .name (validateForm (r.set .name s)) = []) ∧
    (s.length = 2 →
      fieldErrors .subject (validateForm (r.set .subject s)) =
        [⟨.subject, "Subject must be at least 3 characters"⟩]) ∧
    (s.length = 3 → fieldErrors .subject (validateForm (r.set .subject s)) = []) ∧
    (s.length = 9 →
      fieldErrors .message (validateForm (r.set .message s)) =
        [⟨.message, "Message must be at least 10 characters"⟩]) ∧
    (s.length = 10 → fieldErrors .message (validateForm (r.set .message s)) = []) := by
  refine ⟨?_, ?_, ?_, ?_, ?_, ?_⟩ <;> intro h <;> rw [fieldErrors_validateForm]
  · show singleErrorList .name s = _
    simp [singleErrorList_name, nameBlock, ne_empty_of_length_succ h, h]
  · show singleErrorList .name s = _
    simp [singleErrorList_name, nameBlock, ne_empty_of_length_succ h, h]
  · show singleErrorList .subject s = _
    simp [singleErrorList_subject, subjectBlock, ne_empty_of_length_succ h, h]
  · show singleErrorList .subject s = _
    simp [singleErrorList_subject, subjectBlock, ne_empty_of_length_succ h, h]
  · show singleErrorList .message s = _
    simp [singleErrorList_message, messageBlock, ne_empty_of_length_succ h, h]
  · show singleErrorList .message s = _
    simp [singleErrorList_message, messageBlock, ne_empty_of_length_succ h, h]

/-- Witness for C7 at length-boundary values of the name field. -/
theorem length_rule_boundaries_witness :
    fieldErrors .name (validateForm (FormRecord.set ⟨"", "", "", ""⟩ .name "A")) =
      [⟨.name, "Name must be at least 2 characters"⟩] ∧
    fieldErrors .name (validateForm (FormRecord.set ⟨"", "", "", ""⟩ .name "Al")) = [] :=
  ⟨(length_rule_boundaries ⟨"", "", "", ""⟩ "A").1 (by decide),
   (length_rule_boundaries ⟨"", "", "", ""⟩ "Al").2.1 (by decide)⟩

/-- C8: the single-field switch and the full-form validator implement the
same rules: for every field and value, the errors `validateForm` records
for that field are exactly the zero-or-one error of
`validateFieldError` on the field's `name` attribute, with equal message. -/
theorem validateField_matches_validateForm (r : FormRecord) (f : FieldName) (v : String) :
    fieldErrors f (validateForm (r.set f v)) = singleErrorList f v := by
  rw [fieldErrors_validateForm]
  cases f <;> rfl

/-- C9: `showLoading` disables the button with label `Sending...` (the
spec's "Sending…"), `resetButton` re-enables it with label
`Launch Message`, no other handler effect touches the button, and
`submitForm` changes it only by invoking `resetButton`. -/
theorem button_disabled_iff_loading (st : DomState) (errors : List ValidationError)
    (f : FieldName) (d : FormRecord) :
    (showLoading st).button.disabled = true ∧
    (showLoading st).button.btnText = "Sending..." ∧
    (resetButton st).button.disabled = false ∧
    (resetButton st).button.btnText = "Launch Message" ∧
    (clearErrors st).button = st.button ∧
    (showErrors errors st).button = st.button ∧
    (blurField f st).button = st.button ∧
    (inputField f st).button = st.button ∧
    (submitForm d st).button = (resetButton st).button := by
  refine ⟨rfl, rfl, rfl, rfl, rfl, ?_, rfl, rfl, rfl⟩
  show (showErrors errors st).button = st.button
  unfold showErrors
  exact showErrors_foldl_button errors _

/-- C10: a blur on an input or textarea whose `name` is none of the four
form fields computes no error (the switch has no matching case) and leaves
the element — classes and sibling error element — unchanged. -/
theorem unknown_name_blur_no_effect (field : FieldElem)
    (h1 : field.name ≠ "name") (h2 : field.name ≠ "email")
    (h3 : field.name ≠ "subject") (h4 : field.name ≠ "message") :
    validateFieldError field.name (jsTrim field.value) = none ∧
    validateSingleField field = field := by
  have he : validateFieldError field.name (jsTrim field.value) = none := by
    unfold validateFieldError
    rw [if_neg h1, if_neg h2, if_neg h3, if_neg h4]
  refine ⟨he, ?_⟩
  simp only [validateSingleField]
  rw [he]

/-- An element the form also contains but the validator has no case for. -/
def phoneField : FieldElem :=
  { name := "phone"
    value := "123"
    classes := ["border-gray-300"]
    nextSibling := none }

/-- Witness for C10 at an element named `phone`. -/
theorem unknown_name_blur_no_effect_witness :
    phoneField.name ≠ "name" ∧ validateSingleField phoneField = phoneField :=
  ⟨by decide,
   (unknown_name_blur_no_effect phoneField (by decide) (by decide) (by decide) (by decide)).2⟩
